import Mathlib

/-!
# Verification of intelliRoute `core/views.py`

A shallow embedding of the feedback-analysis endpoint
(`analyze_feedback` in `src/intelliroute_project/core/views.py`) together
with the tag-selection and priority-ranking logic it contains, and proofs
of the behavioural claims about it.

Modelling conventions:
* Python/JSON values are the inductive `PyVal`; Python dictionaries are
  association lists with unique keys (JSON objects), looked up first-match.
* Python floats are modelled as rationals (`Rat`); the code only compares
  scores, and every concrete score in this development is exactly
  representable.
* The three outbound HTTP interactions and the document store are modelled
  by a `World` record holding the responses the external services return
  for the one request under analysis; the handler is then a pure function
  of the request and the `World`.
* Exceptions are modelled with `Except`/explicit result constructors; the
  view's `try/except` ladder becomes the corresponding match on the error.
-/

namespace IntelliRoute

/-- Python/JSON-ish values as they occur in this endpoint: the parsed
request body, the zero-shot response body, and the assembled response
dictionaries. `serverTimestamp` stands for the opaque
`firestore.SERVER_TIMESTAMP` sentinel placed in the stored record. -/
inductive PyVal where
  | null : PyVal
  | bool : Bool → PyVal
  | num : Rat → PyVal
  | str : String → PyVal
  | list : List PyVal → PyVal
  | dict : List (String × PyVal) → PyVal
  | serverTimestamp : PyVal
deriving Repr, Inhabited

/-- Python truthiness (`if x:`) for the values modelled here. -/
def pyTruthy : PyVal → Bool
  | .null => false
  | .bool b => b
  | .num q => q ≠ 0
  | .str s => s ≠ ""
  | .list xs => !xs.isEmpty
  | .dict kvs => !kvs.isEmpty
  | .serverTimestamp => true

/-- `d.get(k, dflt)` on a Python dict modelled as an association list with
unique keys (as produced by `json.loads` on a JSON object). -/
def dictGet (kvs : List (String × PyVal)) (k : String) (dflt : PyVal) : PyVal :=
  match kvs.find? (fun p => p.1 == k) with
  | some p => p.2
  | none => dflt

/-- View a value as a Python dict (`isinstance(x, dict)`). -/
def asDict? : PyVal → Option (List (String × PyVal))
  | .dict kvs => some kvs
  | _ => none

/-- The whitespace characters stripped by Python's `str.strip()` (ASCII
range; the inputs in scope are ASCII). -/
def isPySpace (c : Char) : Bool :=
  c = ' ' || c = '\t' || c = '\n' || c = '\x0d' || c = '\x0b' || c = '\x0c'

/-- Python `str.strip()`: remove leading and trailing whitespace. -/
def pyStrip (s : String) : String :=
  String.mk (((s.data.dropWhile isPySpace).reverse.dropWhile isPySpace).reverse)

/-- Python `str.title()` (ASCII): a letter is uppercased when the previous
character is not a letter, lowercased otherwise; non-letters pass through
and reset the word boundary. -/
def titleAux : Bool → List Char → List Char
  | _, [] => []
  | prevCased, c :: cs =>
    if c.isAlpha then
      (if prevCased then c.toLower else c.toUpper) :: titleAux true cs
    else
      c :: titleAux false cs

/-- Python `str.title()` on a string. -/
def pyTitle (s : String) : String := String.mk (titleAux false s.data)

/-- `CLASSIFIER_LABELS` / `PRIORITY_ORDER` from `views.py` (the two lists
are identical). -/
def PRIORITY_ORDER : List String :=
  ["Urgent", "Billing", "Technical Support", "Bug Report",
   "Feature Request", "Praise", "General Feedback"]

/-- First index of `s` in a list of labels, if present. -/
def indexIn (s : String) : List String → Option Nat
  | [] => none
  | x :: xs => if x = s then some 0 else (indexIn s xs).map (· + 1)

/-- `PRIORITY_MAP.get(tag, 100)`: the priority rank of a selected tag.
`PRIORITY_MAP` maps each label of `PRIORITY_ORDER` to its index; any other
key — including non-string values — takes the default 100. -/
def priorityRank (v : PyVal) : Rat :=
  match v with
  | .str s =>
    match indexIn s PRIORITY_ORDER with
    | some i => (i : Rat)
    | none => 100
  | _ => 100

/-- Python exceptions that escape to the handler's generic
`except Exception` clause (modelled only as far as the claims need:
which clause catches them, not their message text). -/
inductive PyErr where
  | attrError : PyErr
  | typeError : PyErr
deriving Repr, DecidableEq

/-- The sort key `x.get('score', 0)` applied to one candidate dict. -/
def scoreKey (d : List (String × PyVal)) : PyVal :=
  dictGet d "score" (.num 0)

/-- Values Python orders like numbers (`bool` is an `int` subtype). -/
def numlike : PyVal → Option Rat
  | .num q => some q
  | .bool b => some (if b then 1 else 0)
  | _ => none

/-- Python `<` on the sort keys, within one comparable class
(numbers-with-bools, or strings). Outside those classes Python raises
`TypeError`; `keysComparable` fences that off before this is used, so the
catch-all `false` is never reached on modelled inputs. List-valued scores
(which Python would compare element-wise) are treated as incomparable;
they occur in no claim. -/
def keyLt (a b : PyVal) : Bool :=
  match numlike a, numlike b with
  | some x, some y => x < y
  | _, _ =>
    match a, b with
    | .str s, .str t => s < t
    | _, _ => false

/-- Whether `list.sort` completes without a `TypeError`: with at most one
element no comparison is made; otherwise every pair of keys must lie in
one comparable class (all number-like, or all strings). -/
def keysComparable (ds : List (List (String × PyVal))) : Bool :=
  ds.length ≤ 1
    || ds.all (fun d => (numlike (scoreKey d)).isSome)
    || ds.all (fun d =>
        match scoreKey d with
        | .str _ => true
        | _ => false)

/-- Stable insertion step for the descending sort: `c` (earlier in the
original order) is placed before `x` unless its key is strictly smaller,
so equal-key elements keep their original order. -/
def insertDesc (c : List (String × PyVal)) :
    List (List (String × PyVal)) → List (List (String × PyVal))
  | [] => [c]
  | x :: xs =>
    if keyLt (scoreKey c) (scoreKey x) then x :: insertDesc c xs
    else c :: x :: xs

/-- `tags.sort(key=lambda x: x.get('score', 0), reverse=True)`: a stable
sort by descending score (Python's sort is stable, also with
`reverse=True`; a stable sort by a key is unique, so this insertion sort
is extensionally Python's). -/
def sortCands :
    List (List (String × PyVal)) → List (List (String × PyVal))
  | [] => []
  | d :: ds => insertDesc d (sortCands ds)

/-- View every element of the list as a dict: `list.sort` computes
`x.get('score', 0)` for every element up front, so one non-dict element
raises `AttributeError`. -/
def allDicts? : List PyVal → Option (List (List (String × PyVal)))
  | [] => some []
  | v :: vs =>
    match asDict? v, allDicts? vs with
    | some d, some ds => some (d :: ds)
    | _, _ => none

/-- Lines 149–163 of `views.py`: select the tag and its priority rank from
the decoded zero-shot response `tags`. Defaults `("General Feedback", 100)`
stand unless `tags` is a truthy list whose first element is a dict; then
the list is sorted by descending score (raising on non-dict elements or
incomparable keys), the top element's `label` is taken, and if truthy it
becomes the tag, ranked through `PRIORITY_MAP`. -/
def processTags (tags : PyVal) : Except PyErr (PyVal × Rat) :=
  match tags with
  | .list (h :: t) =>
    match asDict? h with
    | none => .ok (.str "General Feedback", 100)
    | some _ =>
      match allDicts? (h :: t) with
      | none => .error .attrError
      | some ds =>
        if keysComparable ds then
          let sorted := sortCands ds
          let top_tag := dictGet (sorted.headD []) "label" .null
          if pyTruthy top_tag then .ok (top_tag, priorityRank top_tag)
          else .ok (.str "General Feedback", 100)
        else .error .typeError
  | _ => .ok (.str "General Feedback", 100)

/-- Lines 138–140 of `views.py`: the summarization response, modelled as
`none` when the returned object is falsy and `some st` when truthy with
`st` the optional `summary_text` attribute; the processed summary falls
back to `"Analysis failed."`. -/
def processSummary : Option (Option String) → String
  | some (some t) => t
  | _ => "Analysis failed."

/-- One element of the sentiment response: a
`TextClassificationOutputElement` with its `label` and `score`. -/
structure SentElem where
  label : String
  score : Rat
deriving Repr, DecidableEq

/-- Python `max(l, key=lambda x: x.score)` starting from `h`: keeps the
current maximum on ties, so the first of equal-score elements wins. -/
def maxByScore (h : SentElem) (t : List SentElem) : SentElem :=
  t.foldl (fun b x => if x.score > b.score then x else b) h

/-- Lines 143–146 of `views.py`: the sentiment response, modelled as
`none` when the value is not a list (or falsy) and `some l` for a list
`l`; a non-empty list yields the title-cased label of its highest-scoring
element, anything else defaults to `"Neutral"`. -/
def processSentiment : Option (List SentElem) → String
  | some (h :: t) => pyTitle (maxByScore h t).label
  | _ => "Neutral"

/-- The outbound interactions `analyze_feedback` can perform, in order of
occurrence. `persistAttempt` is the Firestore `tickets_ref.add` call,
made only when the `db` handle is initialized. -/
inductive Effect where
  | callSummarization : Effect
  | callSentiment : Effect
  | callZeroShot : Effect
  | persistAttempt : Effect
deriving Repr, DecidableEq

/-- What the external world returns for the one request under analysis:
the two `InferenceClient` responses, the zero-shot HTTP response
(status, raw text, and its JSON decoding — `none` when `response.json()`
would raise), and the document-store state. -/
structure World where
  summaryResp : Option (Option String)
  sentimentResp : Option (List SentElem)
  zsStatus : Nat
  zsText : String
  zsJson : Option PyVal
  dbInit : Bool
  saveThrows : Bool

/-- The outcome of one request: HTTP status and JSON body of the response,
the outbound calls made, and the record written to the store (`none` when
nothing was durably written). -/
structure AnalyzeResult where
  status : Nat
  body : List (String × PyVal)
  calls : List Effect
  persisted : Option (List (String × PyVal))
deriving Repr

/-- An error response `JsonResponse({'error': msg}, status=st)` reached
after the calls in `cs`, with nothing persisted. -/
def errorResult (st : Nat) (msg : String) (cs : List Effect) : AnalyzeResult :=
  { status := st, body := [("error", .str msg)], calls := cs, persisted := none }

/-- The `except Exception` clause: a 500 with the generic message built
from the exception's text (the text itself is interpreter-produced and
kept abstract as `m`). -/
def unexpectedResult (m : String) (cs : List Effect) : AnalyzeResult :=
  errorResult 500 ("An unexpected error occurred: " ++ m) cs

/-- Human-readable tag for a `PyErr`, standing in for Python's `str(e)`. -/
def PyErr.msg : PyErr → String
  | .attrError => "AttributeError"
  | .typeError => "TypeError"

/-- Calls made before the results are processed: the three upstream
requests, in program order. -/
def upstreamCalls : List Effect :=
  [.callSummarization, .callSentiment, .callZeroShot]

/-- Lines 97–193 of `views.py`: the body of the `try` block after input
validation, for the validated `text_input`. The three upstream calls are
made in order; `raise_for_status` raises `HTTPError` exactly for statuses
400–599, caught at line 197 and echoed with the upstream status code and
`response.text`; a zero-shot body that is not JSON raises a
`json.JSONDecodeError` subclass from `response.json()`, caught at
line 195; the processed results are assembled into `response_data` (with
the `SERVER_TIMESTAMP` sentinel), a copy minus `timestamp` is returned,
and the full record is written to Firestore only when `db` is initialized,
any write failure being swallowed. -/
def analyzeAfterValidation (w : World) : AnalyzeResult :=
  if 400 ≤ w.zsStatus ∧ w.zsStatus < 600 then
    errorResult w.zsStatus
      ("Hugging Face API Error: " ++ toString w.zsStatus ++ " - " ++ w.zsText)
      upstreamCalls
  else
    match w.zsJson with
    | none => errorResult 400 "Invalid JSON in request body" upstreamCalls
    | some tags =>
      match processTags tags with
      | .error e => unexpectedResult e.msg upstreamCalls
      | .ok (processed_tag, processed_rank) =>
        let response_data : List (String × PyVal) :=
          [("summary", .str (processSummary w.summaryResp)),
           ("sentiment", .str (processSentiment w.sentimentResp)),
           ("tags", .list [processed_tag]),
           ("priority_rank", .num processed_rank),
           ("timestamp", .serverTimestamp)]
        let response_data_for_json :=
          response_data.filter (fun p => p.1 ≠ "timestamp")
        { status := 200
          body := response_data_for_json
          calls := upstreamCalls ++ if w.dbInit then [.persistAttempt] else []
          persisted :=
            if w.dbInit && !w.saveThrows then some response_data else none }

/-- `analyze_feedback(request)` in `views.py`, as a function of the
request method, the JSON decoding of `request.body` (`none` when
`json.loads` raises), and the external world. Non-POST methods get a 405;
an undecodable body a 400; `data.get('text', '')` raises
`AttributeError` (→ 500) when `data` is not a dict, as does `.strip()`
when the text value is not a string; empty-after-strip text gets a 400
before any outbound call. -/
def analyze_feedback (method : String) (body : Option PyVal) (w : World) :
    AnalyzeResult :=
  if method ≠ "POST" then
    errorResult 405 "Only POST requests are allowed" []
  else
    match body with
    | none => errorResult 400 "Invalid JSON in request body" []
    | some data =>
      match asDict? data with
      | none => unexpectedResult PyErr.attrError.msg []
      | some kvs =>
        match dictGet kvs "text" (.str "") with
        | .str text_input =>
          if pyStrip text_input = "" then
            errorResult 400 "Text input cannot be empty" []
          else
            analyzeAfterValidation w
        | _ => unexpectedResult PyErr.attrError.msg []

/-- A classification candidate as decoded from JSON: one dict. -/
abbrev Cand := List (String × PyVal)

/-- The confidence score of a candidate under the spec's reading: the
`score` entry's numeric value, with a missing entry counting as 0.
(On the inputs the claims quantify over, `scoreKey` is always `.num`.) -/
def scoreRat (d : Cand) : Rat :=
  match scoreKey d with
  | .num q => q
  | _ => 0

/-- Modelled from the spec: the maximal confidence score of the non-empty
candidate sequence `d :: ds`. -/
def maxScore1 (d : Cand) : List Cand → Rat
  | [] => scoreRat d
  | x :: xs => max (scoreRat d) (maxScore1 x xs)

/-- Modelled from the spec: the selected candidate — the one with maximal
confidence score, first-seen-wins among equal scores. -/
def selFirst (d : Cand) : List Cand → Cand
  | [] => d
  | x :: xs =>
    let m := selFirst x xs
    if scoreRat m > scoreRat d then m else d

theorem selFirst_mem (d : Cand) (ds : List Cand) : selFirst d ds ∈ d :: ds := by
  induction ds generalizing d with
  | nil => simp [selFirst]
  | cons x xs ih =>
    simp only [selFirst]
    split
    · exact List.mem_cons_of_mem d (ih x)
    · exact List.mem_cons_self d _

theorem scoreRat_selFirst (d : Cand) (ds : List Cand) :
    scoreRat (selFirst d ds) = maxScore1 d ds := by
  induction ds generalizing d with
  | nil => simp [selFirst, maxScore1]
  | cons x xs ih =>
    simp only [selFirst, maxScore1]
    split
    · rename_i h
      rw [ih]
      rw [ih] at h
      exact (max_eq_right h.le).symm
    · rename_i h
      rw [ih] at h
      exact (max_eq_left (le_of_not_lt h)).symm

theorem find_eq_selFirst (d : Cand) (ds : List Cand) :
    (d :: ds).find? (fun x => decide (scoreRat x = maxScore1 d ds)) =
      some (selFirst d ds) := by
  induction ds generalizing d with
  | nil => simp [List.find?, selFirst, maxScore1]
  | cons x xs ih =>
    by_cases h : maxScore1 x xs > scoreRat d
    · have hmax : maxScore1 d (x :: xs) = maxScore1 x xs := by
        simp only [maxScore1]; exact max_eq_right h.le
      have hd : ¬ (scoreRat d = maxScore1 d (x :: xs)) := by
        rw [hmax]; exact ne_of_lt h
      rw [List.find?_cons_of_neg _ (by simpa using hd)]
      have hfun : (fun y => decide (scoreRat y = maxScore1 d (x :: xs))) =
          (fun y => decide (scoreRat y = maxScore1 x xs)) := by
        funext y; rw [hmax]
      rw [hfun, ih]
      simp only [selFirst]
      rw [scoreRat_selFirst, if_pos h]
    · have hmax : maxScore1 d (x :: xs) = scoreRat d := by
        simp only [maxScore1]; exact max_eq_left (le_of_not_lt h)
      rw [List.find?_cons_of_pos _ (by simp [hmax])]
      simp only [selFirst]
      rw [scoreRat_selFirst, if_neg h]

theorem insertDesc_cons (c x : Cand) (xs : List Cand) :
    insertDesc c (x :: xs) =
      if keyLt (scoreKey c) (scoreKey x) then x :: insertDesc c xs
      else c :: x :: xs := rfl

theorem sortCands_cons_ne_nil (d : Cand) (ds : List Cand) :
    sortCands (d :: ds) ≠ [] := by
  show insertDesc d (sortCands ds) ≠ []
  cases h : sortCands ds with
  | nil => simp [insertDesc]
  | cons x xs =>
    rw [insertDesc_cons]
    split <;> simp

theorem head_sortCands (d : Cand) (ds : List Cand)
    (hsc : ∀ x ∈ d :: ds, ∃ q : Rat, scoreKey x = .num q) :
    (sortCands (d :: ds)).headD [] = selFirst d ds := by
  induction ds generalizing d with
  | nil => simp [sortCands, insertDesc, selFirst]
  | cons x xs ih =>
    have hx : (sortCands (x :: xs)).headD [] = selFirst x xs :=
      ih x (fun y hy => hsc y (List.mem_cons_of_mem d hy))
    obtain ⟨m, rest, hsort⟩ :
        ∃ m rest, sortCands (x :: xs) = m :: rest := by
      cases h : sortCands (x :: xs) with
      | nil => exact absurd h (sortCands_cons_ne_nil x xs)
      | cons m rest => exact ⟨m, rest, rfl⟩
    have hm : m = selFirst x xs := by
      rw [hsort] at hx; simpa using hx
    obtain ⟨qd, hqd⟩ := hsc d (List.mem_cons_self d _)
    obtain ⟨qm, hqm⟩ := hsc (selFirst x xs)
      (List.mem_cons_of_mem d (selFirst_mem x xs))
    have hlt : keyLt (scoreKey d) (scoreKey (selFirst x xs)) =
        decide (qd < qm) := by
      rw [hqd, hqm]
      simp [keyLt, numlike]
    show (insertDesc d (sortCands (x :: xs))).headD [] = _
    rw [hsort, hm, insertDesc_cons, hlt]
    have hsd : scoreRat d = qd := by simp [scoreRat, hqd]
    have hsm : scoreRat (selFirst x xs) = qm := by simp [scoreRat, hqm]
    by_cases h : qd < qm
    · rw [decide_eq_true h, if_pos rfl, List.headD_cons]
      simp only [selFirst]
      rw [if_pos (by rw [hsd, hsm]; exact h)]
    · rw [decide_eq_false h, if_neg (by simp), List.headD_cons]
      simp only [selFirst]
      rw [if_neg (by rw [hsd, hsm]; exact h)]

theorem allDicts?_map : ∀ l : List Cand, allDicts? (l.map .dict) = some l
  | [] => rfl
  | d :: ds => by
    simp only [List.map_cons, allDicts?, asDict?, allDicts?_map ds]

theorem keysComparable_of_num (ds : List Cand)
    (hsc : ∀ x ∈ ds, ∃ q : Rat, scoreKey x = .num q) :
    keysComparable ds = true := by
  have hall : ds.all (fun d => (numlike (scoreKey d)).isSome) = true := by
    rw [List.all_eq_true]
    intro x hx
    obtain ⟨q, hq⟩ := hsc x hx
    rw [hq]
    rfl
  simp [keysComparable, hall]

/-- The tag-selection result on a non-empty list of candidate dicts whose
scores are all numeric (or absent, defaulting to 0): the stably-sorted
list's head is the first candidate attaining the maximal score, and its
`label` decides the outcome. -/
theorem processTags_top (d : Cand) (ds : List Cand)
    (hsc : ∀ x ∈ d :: ds, ∃ q : Rat, scoreKey x = .num q) :
    processTags (.list ((d :: ds).map .dict)) =
      (if pyTruthy (dictGet (selFirst d ds) "label" .null) then
        .ok (dictGet (selFirst d ds) "label" .null,
          priorityRank (dictGet (selFirst d ds) "label" .null))
      else .ok (.str "General Feedback", 100)) := by
  have hall : allDicts? (PyVal.dict d :: ds.map PyVal.dict) = some (d :: ds) :=
    allDicts?_map (d :: ds)
  have hcomp : keysComparable (d :: ds) = true := keysComparable_of_num _ hsc
  have hhead : (sortCands (d :: ds)).headD [] = selFirst d ds :=
    head_sortCands d ds hsc
  simp only [processTags, List.map_cons, asDict?, hall, hcomp, if_true, hhead]

/-- C1: for every non-empty sequence of candidate dicts (scores numeric
or absent — an absent score counts as 0 via the sort key's default —
labels present and non-empty), the tag selection returns the label of the
first candidate attaining the maximal score (first-seen-wins among equal
scores, witnessed by `find?`), paired with that label's priority-table
rank. -/
theorem c1_tag_selection (d : Cand) (ds : List Cand)
    (hsc : ∀ x ∈ d :: ds, ∃ q : Rat, scoreKey x = .num q)
    (hlab : ∀ x ∈ d :: ds,
      ∃ s : String, s ≠ "" ∧ dictGet x "label" .null = .str s) :
    ∃ top,
      (d :: ds).find? (fun x => decide (scoreRat x = maxScore1 d ds)) =
        some top ∧
      processTags (.list ((d :: ds).map .dict)) =
        .ok (dictGet top "label" .null,
          priorityRank (dictGet top "label" .null)) := by
  refine ⟨selFirst d ds, find_eq_selFirst d ds, ?_⟩
  rw [processTags_top d ds hsc]
  obtain ⟨s, hs, hlb⟩ := hlab _ (selFirst_mem d ds)
  rw [hlb]
  simp [pyTruthy, hs]

/-- Witness for C1 at the spec's own example
`[{"label": "Billing", "score": 0.81}, {"label": "Urgent", "score": 0.65}]`. -/
theorem c1_tag_selection_witness :
    ∃ top,
      [[("label", PyVal.str "Billing"), ("score", PyVal.num (81/100))],
        [("label", PyVal.str "Urgent"), ("score", PyVal.num (65/100))]].find?
          (fun x => decide (scoreRat x =
            maxScore1 [("label", PyVal.str "Billing"), ("score", PyVal.num (81/100))]
              [[("label", PyVal.str "Urgent"), ("score", PyVal.num (65/100))]])) =
        some top ∧
      processTags (.list
        ([[("label", PyVal.str "Billing"), ("score", PyVal.num (81/100))],
          [("label", PyVal.str "Urgent"), ("score", PyVal.num (65/100))]].map .dict)) =
        .ok (dictGet top "label" .null,
          priorityRank (dictGet top "label" .null)) := by
  refine c1_tag_selection _ _ ?_ ?_
  · intro x hx
    rcases List.mem_cons.mp hx with h | h
    · exact ⟨81/100, by subst h; rfl⟩
    · rcases List.mem_singleton.mp h with h
      exact ⟨65/100, by subst h; rfl⟩
  · intro x hx
    rcases List.mem_cons.mp hx with h | h
    · exact ⟨"Billing", (by simp), (by subst h; rfl)⟩
    · rcases List.mem_singleton.mp h with h
      exact ⟨"Urgent", (by simp), (by subst h; rfl)⟩

/-- C5: when no usable candidate exists — the decoded zero-shot value is
an empty list, not a list at all, or a list whose first element is not a
dict — the selection is exactly the default pair
`("General Feedback", 100)`. -/
theorem c5_default_pair (v : PyVal)
    (h : v = .list [] ∨ (∀ xs, v ≠ .list xs) ∨
      ∃ h0 t, v = .list (h0 :: t) ∧ asDict? h0 = none) :
    processTags v = .ok (.str "General Feedback", 100) := by
  rcases h with h | h | ⟨h0, t, rfl, hd⟩
  · rw [h]; rfl
  · cases v with
    | list xs => exact absurd rfl (h xs)
    | null => rfl
    | bool b => rfl
    | num q => rfl
    | str s => rfl
    | dict kvs => rfl
    | serverTimestamp => rfl
  · simp only [processTags, hd]

/-- Witness for C5 at the empty candidate list. -/
theorem c5_default_pair_witness :
    processTags (.list []) = .ok (.str "General Feedback", 100) :=
  c5_default_pair _ (Or.inl rfl)

/-- Counterexample to C6 as stated: the sole (hence top-scoring) candidate
carries the label `None`, which is absent from the priority table, yet the
selection returns the default pair `("General Feedback", 100)` — not
`None` paired with 100 — because `if top_tag:` rejects falsy labels. -/
theorem c6_counterexample :
    processTags (.list [.dict [("label", PyVal.null),
        ("score", PyVal.num (81/100))]]) =
      .ok (.str "General Feedback", 100) ∧
    PyVal.str "General Feedback" ≠ PyVal.null := by
  exact ⟨rfl, fun h => PyVal.noConfusion h⟩

/-- C6 (amended): a top-scoring candidate whose label is a *truthy*
(non-empty) string absent from the priority table is returned with the
sentinel rank 100; falsy labels (`None`, `""`, or a missing entry)
instead yield the default pair. -/
theorem c6_unknown_label (d : Cand) (ds : List Cand) (s : String)
    (hsc : ∀ x ∈ d :: ds, ∃ q : Rat, scoreKey x = .num q)
    (hlb : dictGet (selFirst d ds) "label" .null = .str s)
    (hs : s ≠ "") (habs : indexIn s PRIORITY_ORDER = none) :
    processTags (.list ((d :: ds).map .dict)) = .ok (.str s, 100) := by
  rw [processTags_top d ds hsc, hlb]
  simp [pyTruthy, hs, priorityRank, habs]

/-- Witness for the amended C6 at
`[{"label": "Refund Request", "score": 0.9}]`. -/
theorem c6_unknown_label_witness :
    processTags (.list
        [.dict [("label", PyVal.str "Refund Request"),
          ("score", PyVal.num (9/10))]]) =
      .ok (.str "Refund Request", 100) := by
  refine c6_unknown_label _ [] "Refund Request" ?_ rfl (by simp) rfl
  intro x hx
  rcases List.mem_singleton.mp hx with h
  exact ⟨9/10, by subst h; rfl⟩

theorem maxByScore_mem (h : SentElem) (t : List SentElem) :
    maxByScore h t ∈ h :: t := by
  induction t generalizing h with
  | nil => simp [maxByScore]
  | cons x xs ih =>
    have step : maxByScore h (x :: xs) =
        maxByScore (if x.score > h.score then x else h) xs := rfl
    rw [step]
    rcases List.mem_cons.mp (ih (if x.score > h.score then x else h)) with
        hm | hm
    · rw [hm]
      split
      · exact List.mem_cons_of_mem h (List.mem_cons_self x xs)
      · exact List.mem_cons_self h _
    · exact List.mem_cons_of_mem h (List.mem_cons_of_mem x hm)

theorem maxByScore_ge (h : SentElem) (t : List SentElem) :
    ∀ x ∈ h :: t, x.score ≤ (maxByScore h t).score := by
  induction t generalizing h with
  | nil =>
    intro x hx
    rcases List.mem_singleton.mp hx with rfl
    exact le_refl _
  | cons y ys ih =>
    intro x hx
    have step : maxByScore h (y :: ys) =
        maxByScore (if y.score > h.score then y else h) ys := rfl
    rw [step]
    have hacc : h.score ≤ (if y.score > h.score then y else h).score ∧
        y.score ≤ (if y.score > h.score then y else h).score := by
      split
      · rename_i hgt; exact ⟨hgt.le, le_refl _⟩
      · rename_i hgt; exact ⟨le_refl _, le_of_not_lt hgt⟩
    have hrec := ih (if y.score > h.score then y else h)
    have hself : (if y.score > h.score then y else h).score ≤
        (maxByScore (if y.score > h.score then y else h) ys).score :=
      hrec _ (List.mem_cons_self _ _)
    rcases List.mem_cons.mp hx with rfl | hx
    · exact le_trans hacc.1 hself
    · rcases List.mem_cons.mp hx with rfl | hx
      · exact le_trans hacc.2 hself
      · exact hrec _ (List.mem_cons_of_mem _ hx)

/-- C9: a non-empty sentiment response yields the title-cased label of a
highest-scoring element of the list; an empty or malformed response
(modelled as `none`: the value is not a non-empty list) defaults to
`"Neutral"` without failing — `processSentiment` is total. -/
theorem c9_sentiment (resp : Option (List SentElem)) :
    ((resp = none ∨ resp = some []) → processSentiment resp = "Neutral") ∧
    (∀ h t, resp = some (h :: t) →
      ∃ top ∈ h :: t, (∀ x ∈ h :: t, x.score ≤ top.score) ∧
        processSentiment resp = pyTitle top.label) := by
  constructor
  · rintro (rfl | rfl) <;> rfl
  · rintro h t rfl
    exact ⟨maxByScore h t, maxByScore_mem h t, maxByScore_ge h t, rfl⟩

/-- Witness for C9 at the response
`[("POSITIVE", 0.7), ("NEGATIVE", 0.3)]` (and, for the default clause, at
the empty response). -/
theorem c9_sentiment_witness :
    processSentiment (some []) = "Neutral" ∧
    ∃ top ∈ [SentElem.mk "POSITIVE" (7/10), SentElem.mk "NEGATIVE" (3/10)],
      (∀ x ∈ [SentElem.mk "POSITIVE" (7/10), SentElem.mk "NEGATIVE" (3/10)],
        x.score ≤ top.score) ∧
      processSentiment
          (some [SentElem.mk "POSITIVE" (7/10),
            SentElem.mk "NEGATIVE" (3/10)]) =
        pyTitle top.label :=
  ⟨(c9_sentiment (some [])).1 (Or.inr rfl),
   (c9_sentiment (some [SentElem.mk "POSITIVE" (7/10),
      SentElem.mk "NEGATIVE" (3/10)])).2 _ _ rfl⟩

/-- The success path of the handler: a POST whose body is a JSON object
with non-empty text, a zero-shot call that does not raise (status outside
400–599) and decodes to `tags`, and a tag selection that does not raise. -/
theorem analyze_success (kvs : List (String × PyVal)) (text : String)
    (w : World) (tags ptag : PyVal) (prank : Rat)
    (htext : dictGet kvs "text" (.str "") = .str text)
    (hne : pyStrip text ≠ "")
    (hzs : ¬(400 ≤ w.zsStatus ∧ w.zsStatus < 600))
    (hjson : w.zsJson = some tags)
    (htags : processTags tags = .ok (ptag, prank)) :
    analyze_feedback "POST" (some (.dict kvs)) w =
      { status := 200,
        body := [("summary", .str (processSummary w.summaryResp)),
                 ("sentiment", .str (processSentiment w.sentimentResp)),
                 ("tags", .list [ptag]),
                 ("priority_rank", .num prank)],
        calls := upstreamCalls ++ if w.dbInit then [.persistAttempt] else [],
        persisted :=
          if w.dbInit && !w.saveThrows then
            some [("summary", .str (processSummary w.summaryResp)),
                  ("sentiment", .str (processSentiment w.sentimentResp)),
                  ("tags", .list [ptag]),
                  ("priority_rank", .num prank),
                  ("timestamp", .serverTimestamp)]
          else none } := by
  simp only [analyze_feedback, asDict?, htext, analyzeAfterValidation,
    hjson, htags]
  rw [if_neg (by simp), if_neg hne, if_neg hzs]
  simp [List.filter]

/-- Counterexample to C2 as stated: a zero-shot HTTP status of 301 is
non-2xx, yet `raise_for_status` raises only for 400–599, so the operation
proceeds and — the 301 body decoding to an empty JSON list — succeeds with
status 200 instead of failing with the upstream status. -/
theorem c2_counterexample :
    (analyze_feedback "POST" (some (.dict [("text", PyVal.str "help")]))
        { summaryResp := some (some "a summary"),
          sentimentResp := some [SentElem.mk "POSITIVE" (9/10)],
          zsStatus := 301, zsText := "redirect", zsJson := some (.list []),
          dbInit := false, saveThrows := false }).status = 200 := by
  rfl

/-- C2 (amended): if the zero-shot HTTP call returns a status in 400–599
(the statuses `raise_for_status` raises for), the operation fails with a
response carrying that upstream status code and body text, the
summarization and sentiment results are discarded (the response body holds
only the error message), and nothing is persisted. -/
theorem c2_upstream_error (kvs : List (String × PyVal)) (text : String)
    (w : World)
    (htext : dictGet kvs "text" (.str "") = .str text)
    (hne : pyStrip text ≠ "")
    (hstatus : 400 ≤ w.zsStatus ∧ w.zsStatus < 600) :
    analyze_feedback "POST" (some (.dict kvs)) w =
      { status := w.zsStatus,
        body := [("error", .str ("Hugging Face API Error: " ++
          toString w.zsStatus ++ " - " ++ w.zsText))],
        calls := upstreamCalls,
        persisted := none } := by
  simp only [analyze_feedback, asDict?, htext, analyzeAfterValidation]
  rw [if_neg (by simp), if_neg hne, if_pos hstatus]
  rfl

/-- Witness for the amended C2 at upstream status 503. -/
theorem c2_upstream_error_witness :
    analyze_feedback "POST" (some (.dict [("text", PyVal.str "help")]))
        { summaryResp := some (some "a summary"),
          sentimentResp := some [SentElem.mk "POSITIVE" (9/10)],
          zsStatus := 503, zsText := "service unavailable",
          zsJson := none, dbInit := true, saveThrows := false } =
      { status := 503,
        body := [("error",
          .str "Hugging Face API Error: 503 - service unavailable")],
        calls := upstreamCalls,
        persisted := none } :=
  c2_upstream_error [("text", PyVal.str "help")] "help" _ rfl
    (by simp [pyStrip, isPySpace]) (by constructor <;> norm_num)

/-- C4: a POST whose text is empty or whitespace-only after stripping —
including a missing `text` field, which defaults to the empty string —
is rejected with the 400 empty-text response before any outbound call:
no summarization, sentiment, zero-shot or persistence interaction
occurs. -/
theorem c4_empty_text (kvs : List (String × PyVal)) (text : String)
    (w : World)
    (htext : dictGet kvs "text" (.str "") = .str text)
    (hempty : pyStrip text = "") :
    analyze_feedback "POST" (some (.dict kvs)) w =
      { status := 400,
        body := [("error", .str "Text input cannot be empty")],
        calls := [], persisted := none } := by
  simp only [analyze_feedback, asDict?, htext]
  rw [if_neg (by simp), if_pos hempty]
  rfl

/-- Witness for C4: a whitespace-only text and a body missing the `text`
field both get the 400 with no calls made. -/
theorem c4_empty_text_witness :
    analyze_feedback "POST" (some (.dict [("text", PyVal.str "  \t ")]))
        { summaryResp := none, sentimentResp := none, zsStatus := 200,
          zsText := "", zsJson := none, dbInit := true,
          saveThrows := false } =
      { status := 400,
        body := [("error", .str "Text input cannot be empty")],
        calls := [], persisted := none } :=
  c4_empty_text [("text", PyVal.str "  \t ")] "  \t " _ rfl
    (by rfl)

/-- C3: when the summarization response is falsy or lacks the
`summary_text` field, and the other steps succeed, the analysis still
succeeds (status 200): the record's summary is the fixed fallback string
`"Analysis failed."` while sentiment and tags come from their own calls;
no error is surfaced for the summarization failure. -/
theorem c3_summary_fallback (kvs : List (String × PyVal)) (text : String)
    (w : World) (tags ptag : PyVal) (prank : Rat)
    (htext : dictGet kvs "text" (.str "") = .str text)
    (hne : pyStrip text ≠ "")
    (hsum : w.summaryResp = none ∨ w.summaryResp = some none)
    (hzs : ¬(400 ≤ w.zsStatus ∧ w.zsStatus < 600))
    (hjson : w.zsJson = some tags)
    (htags : processTags tags = .ok (ptag, prank)) :
    analyze_feedback "POST" (some (.dict kvs)) w =
      { status := 200,
        body := [("summary", .str "Analysis failed."),
                 ("sentiment", .str (processSentiment w.sentimentResp)),
                 ("tags", .list [ptag]),
                 ("priority_rank", .num prank)],
        calls := upstreamCalls ++ if w.dbInit then [.persistAttempt] else [],
        persisted :=
          if w.dbInit && !w.saveThrows then
            some [("summary", .str "Analysis failed."),
                  ("sentiment", .str (processSentiment w.sentimentResp)),
                  ("tags", .list [ptag]),
                  ("priority_rank", .num prank),
                  ("timestamp", .serverTimestamp)]
          else none } := by
  rw [analyze_success kvs text w tags ptag prank htext hne hzs hjson htags]
  have hfb : processSummary w.summaryResp = "Analysis failed." := by
    rcases hsum with h | h <;> rw [h] <;> rfl
  rw [hfb]

/-- Witness for C3: a truthy summarization object without `summary_text`,
healthy sentiment and zero-shot calls. -/
theorem c3_summary_fallback_witness :
    analyze_feedback "POST" (some (.dict [("text", PyVal.str "the app crashes")]))
        { summaryResp := some none,
          sentimentResp := some [SentElem.mk "NEGATIVE" (95/100)],
          zsStatus := 200, zsText := "",
          zsJson := some (.list [.dict [("label", PyVal.str "Bug Report"),
            ("score", PyVal.num (88/100))]]),
          dbInit := true, saveThrows := false } =
      { status := 200,
        body := [("summary", .str "Analysis failed."),
                 ("sentiment", .str "Negative"),
                 ("tags", .list [PyVal.str "Bug Report"]),
                 ("priority_rank", .num 3)],
        calls := upstreamCalls ++ [.persistAttempt],
        persisted :=
          some [("summary", .str "Analysis failed."),
                ("sentiment", .str "Negative"),
                ("tags", .list [PyVal.str "Bug Report"]),
                ("priority_rank", .num 3),
                ("timestamp", .serverTimestamp)] } := by
  rw [c3_summary_fallback [("text", PyVal.str "the app crashes")]
      "the app crashes" _
      (.list [.dict [("label", PyVal.str "Bug Report"),
        ("score", PyVal.num (88/100))]])
      (PyVal.str "Bug Report") 3 rfl
      (by simp [pyStrip, isPySpace]) (Or.inr rfl)
      (by simp) rfl (by rfl)]
  rfl

/-- C7: persistence is best-effort — when the store handle was never
initialized, or the write throws, a successful analysis still returns the
200 response with the full record minus the timestamp, and no error is
surfaced (the result differs from the fully-successful one only in the
persistence outcome). -/
theorem c7_persistence_best_effort (kvs : List (String × PyVal))
    (text : String) (w : World) (tags ptag : PyVal) (prank : Rat)
    (htext : dictGet kvs "text" (.str "") = .str text)
    (hne : pyStrip text ≠ "")
    (hzs : ¬(400 ≤ w.zsStatus ∧ w.zsStatus < 600))
    (hjson : w.zsJson = some tags)
    (htags : processTags tags = .ok (ptag, prank))
    (hfail : w.dbInit = false ∨ w.saveThrows = true) :
    (analyze_feedback "POST" (some (.dict kvs)) w).status = 200 ∧
    (analyze_feedback "POST" (some (.dict kvs)) w).body =
      [("summary", .str (processSummary w.summaryResp)),
       ("sentiment", .str (processSentiment w.sentimentResp)),
       ("tags", .list [ptag]),
       ("priority_rank", .num prank)] ∧
    (analyze_feedback "POST" (some (.dict kvs)) w).persisted = none := by
  rw [analyze_success kvs text w tags ptag prank htext hne hzs hjson htags]
  refine ⟨rfl, rfl, ?_⟩
  rcases hfail with h | h <;> simp [h]

/-- Witness for C7: the write throws (`saveThrows`), yet the caller gets
the 200 response with the record minus timestamp. -/
theorem c7_persistence_best_effort_witness :
    (analyze_feedback "POST" (some (.dict [("text", PyVal.str "thanks!")]))
        { summaryResp := some (some "Positive note."),
          sentimentResp := some [SentElem.mk "POSITIVE" (99/100)],
          zsStatus := 200, zsText := "",
          zsJson := some (.list [.dict [("label", PyVal.str "Praise"),
            ("score", PyVal.num (97/100))]]),
          dbInit := true, saveThrows := true }).status = 200 ∧
    (analyze_feedback "POST" (some (.dict [("text", PyVal.str "thanks!")]))
        { summaryResp := some (some "Positive note."),
          sentimentResp := some [SentElem.mk "POSITIVE" (99/100)],
          zsStatus := 200, zsText := "",
          zsJson := some (.list [.dict [("label", PyVal.str "Praise"),
            ("score", PyVal.num (97/100))]]),
          dbInit := true, saveThrows := true }).body =
      [("summary", .str "Positive note."),
       ("sentiment", .str "Positive"),
       ("tags", .list [PyVal.str "Praise"]),
       ("priority_rank", .num 5)] ∧
    (analyze_feedback "POST" (some (.dict [("text", PyVal.str "thanks!")]))
        { summaryResp := some (some "Positive note."),
          sentimentResp := some [SentElem.mk "POSITIVE" (99/100)],
          zsStatus := 200, zsText := "",
          zsJson := some (.list [.dict [("label", PyVal.str "Praise"),
            ("score", PyVal.num (97/100))]]),
          dbInit := true, saveThrows := true }).persisted = none :=
  c7_persistence_best_effort _ "thanks!" _
    (.list [.dict [("label", PyVal.str "Praise"),
      ("score", PyVal.num (97/100))]])
    (PyVal.str "Praise") 5 rfl (by simp [pyStrip, isPySpace]) (by simp)
    rfl (by rfl) (Or.inr rfl)

/-- C8: on a successful analysis the caller's response body has exactly
the four fields `summary`, `sentiment`, `tags`, `priority_rank` (the
`timestamp` field is stripped); the persisted copy is the same record
with the server-timestamp entry appended; and `tags` is a one-element
list. -/
theorem c8_response_shape (kvs : List (String × PyVal)) (text : String)
    (w : World) (tags ptag : PyVal) (prank : Rat)
    (htext : dictGet kvs "text" (.str "") = .str text)
    (hne : pyStrip text ≠ "")
    (hzs : ¬(400 ≤ w.zsStatus ∧ w.zsStatus < 600))
    (hjson : w.zsJson = some tags)
    (htags : processTags tags = .ok (ptag, prank))
    (hdb : w.dbInit = true) (hsave : w.saveThrows = false) :
    ((analyze_feedback "POST" (some (.dict kvs)) w).body.map Prod.fst =
        ["summary", "sentiment", "tags", "priority_rank"]) ∧
    dictGet (analyze_feedback "POST" (some (.dict kvs)) w).body "tags"
        .null = .list [ptag] ∧
    (analyze_feedback "POST" (some (.dict kvs)) w).persisted =
      some ((analyze_feedback "POST" (some (.dict kvs)) w).body ++
        [("timestamp", .serverTimestamp)]) := by
  rw [analyze_success kvs text w tags ptag prank htext hne hzs hjson htags]
  refine ⟨rfl, rfl, ?_⟩
  simp [hdb, hsave]

/-- Witness for C8 on a fully successful run. -/
theorem c8_response_shape_witness :
    ((analyze_feedback "POST" (some (.dict [("text", PyVal.str "bill issue")]))
        { summaryResp := some (some "Billing issue."),
          sentimentResp := some [SentElem.mk "NEGATIVE" (8/10)],
          zsStatus := 200, zsText := "",
          zsJson := some (.list [.dict [("label", PyVal.str "Billing"),
            ("score", PyVal.num (9/10))]]),
          dbInit := true, saveThrows := false }).body.map Prod.fst =
        ["summary", "sentiment", "tags", "priority_rank"]) ∧
    dictGet (analyze_feedback "POST"
        (some (.dict [("text", PyVal.str "bill issue")]))
        { summaryResp := some (some "Billing issue."),
          sentimentResp := some [SentElem.mk "NEGATIVE" (8/10)],
          zsStatus := 200, zsText := "",
          zsJson := some (.list [.dict [("label", PyVal.str "Billing"),
            ("score", PyVal.num (9/10))]]),
          dbInit := true, saveThrows := false }).body "tags" .null =
      .list [PyVal.str "Billing"] ∧
    (analyze_feedback "POST" (some (.dict [("text", PyVal.str "bill issue")]))
        { summaryResp := some (some "Billing issue."),
          sentimentResp := some [SentElem.mk "NEGATIVE" (8/10)],
          zsStatus := 200, zsText := "",
          zsJson := some (.list [.dict [("label", PyVal.str "Billing"),
            ("score", PyVal.num (9/10))]]),
          dbInit := true, saveThrows := false }).persisted =
      some ((analyze_feedback "POST"
          (some (.dict [("text", PyVal.str "bill issue")]))
          { summaryResp := some (some "Billing issue."),
            sentimentResp := some [SentElem.mk "NEGATIVE" (8/10)],
            zsStatus := 200, zsText := "",
            zsJson := some (.list [.dict [("label", PyVal.str "Billing"),
              ("score", PyVal.num (9/10))]]),
            dbInit := true, saveThrows := false }).body ++
        [("timestamp", .serverTimestamp)]) :=
  c8_response_shape _ "bill issue" _
    (.list [.dict [("label", PyVal.str "Billing"),
      ("score", PyVal.num (9/10))]])
    (PyVal.str "Billing") 1 rfl (by simp [pyStrip, isPySpace]) (by simp)
    rfl (by rfl) rfl rfl

/-- Counterexample to C10 as stated, in two parts. (1) The body `{}`
parses as JSON and is not an object with a string-valued `text` field,
yet the endpoint returns the 400 empty-text response, not the generic
500: a missing `text` field defaults to `""` and is caught by the
empty-text check. (2) A body that parses fine can still get the 400
invalid-JSON response: a 2xx zero-shot response whose own body is not
JSON makes `response.json()` raise a `json.JSONDecodeError` subclass,
caught by the invalid-JSON clause. -/
theorem c10_counterexample :
    analyze_feedback "POST" (some (.dict []))
        { summaryResp := none, sentimentResp := none, zsStatus := 200,
          zsText := "", zsJson := none, dbInit := false,
          saveThrows := false } =
      { status := 400,
        body := [("error", .str "Text input cannot be empty")],
        calls := [], persisted := none } ∧
    analyze_feedback "POST" (some (.dict [("text", PyVal.str "hi")]))
        { summaryResp := some (some "s"), sentimentResp := some [],
          zsStatus := 200, zsText := "not json", zsJson := none,
          dbInit := false, saveThrows := false } =
      { status := 400,
        body := [("error", .str "Invalid JSON in request body")],
        calls := upstreamCalls, persisted := none } := by
  exact ⟨rfl, rfl⟩

/-- C10 (amended): a POST body that parses as JSON but is not an object,
or whose `text` field holds a non-string value, raises inside the `try`
block (`.get` / `.strip` is missing) and yields the generic 500 response
with no calls made; a body missing the `text` field instead gets the 400
empty-text response (it defaults to `""`). The 400 invalid-JSON response
arises when the request body fails to parse — and also when a
non-raising zero-shot response's body fails to parse, after the three
upstream calls. -/
theorem c10_body_validation (w : World) :
    (∀ v : PyVal, asDict? v = none →
      analyze_feedback "POST" (some v) w =
        { status := 500,
          body := [("error",
            .str ("An unexpected error occurred: " ++ PyErr.attrError.msg))],
          calls := [], persisted := none }) ∧
    (∀ (kvs : List (String × PyVal)) (tv : PyVal),
      dictGet kvs "text" (.str "") = tv → (∀ s, tv ≠ .str s) →
      analyze_feedback "POST" (some (.dict kvs)) w =
        { status := 500,
          body := [("error",
            .str ("An unexpected error occurred: " ++ PyErr.attrError.msg))],
          calls := [], persisted := none }) ∧
    (analyze_feedback "POST" none w =
      { status := 400,
        body := [("error", .str "Invalid JSON in request body")],
        calls := [], persisted := none }) ∧
    (∀ (kvs : List (String × PyVal)) (text : String),
      dictGet kvs "text" (.str "") = .str text → pyStrip text ≠ "" →
      ¬(400 ≤ w.zsStatus ∧ w.zsStatus < 600) → w.zsJson = none →
      analyze_feedback "POST" (some (.dict kvs)) w =
        { status := 400,
          body := [("error", .str "Invalid JSON in request body")],
          calls := upstreamCalls, persisted := none }) := by
  refine ⟨?_, ?_, rfl, ?_⟩
  · intro v hv
    simp only [analyze_feedback, hv]
    rw [if_neg (by simp)]; rfl
  · intro kvs tv htv hs
    cases tv with
    | str s => exact absurd rfl (hs s)
    | null =>
      simp only [analyze_feedback, asDict?, htv]
      rw [if_neg (by simp)]; rfl
    | bool b =>
      simp only [analyze_feedback, asDict?, htv]
      rw [if_neg (by simp)]; rfl
    | num q =>
      simp only [analyze_feedback, asDict?, htv]
      rw [if_neg (by simp)]; rfl
    | list xs =>
      simp only [analyze_feedback, asDict?, htv]
      rw [if_neg (by simp)]; rfl
    | dict kvs2 =>
      simp only [analyze_feedback, asDict?, htv]
      rw [if_neg (by simp)]; rfl
    | serverTimestamp =>
      simp only [analyze_feedback, asDict?, htv]
      rw [if_neg (by simp)]; rfl
  · intro kvs text htext hne hzs hjson
    simp only [analyze_feedback, asDict?, htext, analyzeAfterValidation,
      hjson]
    rw [if_neg (by simp), if_neg hne, if_neg hzs]; rfl

/-- Witness for the amended C10: a JSON array body and a numeric `text`
value both yield the generic 500 with no calls; an unparseable request
body yields the invalid-JSON 400 with no calls; an unparseable 2xx
zero-shot body yields the invalid-JSON 400 after the three calls. -/
theorem c10_body_validation_witness :
    (analyze_feedback "POST" (some (.list [PyVal.num 1]))
        { summaryResp := none, sentimentResp := none, zsStatus := 200,
          zsText := "", zsJson := none, dbInit := false,
          saveThrows := false } =
      { status := 500,
        body := [("error",
          .str ("An unexpected error occurred: " ++ PyErr.attrError.msg))],
        calls := [], persisted := none }) ∧
    (analyze_feedback "POST" (some (.dict [("text", PyVal.num 5)]))
        { summaryResp := none, sentimentResp := none, zsStatus := 200,
          zsText := "", zsJson := none, dbInit := false,
          saveThrows := false } =
      { status := 500,
        body := [("error",
          .str ("An unexpected error occurred: " ++ PyErr.attrError.msg))],
        calls := [], persisted := none }) ∧
    (analyze_feedback "POST" none
        { summaryResp := none, sentimentResp := none, zsStatus := 200,
          zsText := "", zsJson := none, dbInit := false,
          saveThrows := false } =
      { status := 400,
        body := [("error", .str "Invalid JSON in request body")],
        calls := [], persisted := none }) ∧
    (analyze_feedback "POST" (some (.dict [("text", PyVal.str "hi")]))
        { summaryResp := none, sentimentResp := none, zsStatus := 200,
          zsText := "not json", zsJson := none, dbInit := false,
          saveThrows := false } =
      { status := 400,
        body := [("error", .str "Invalid JSON in request body")],
        calls := upstreamCalls, persisted := none }) :=
  ⟨(c10_body_validation _).1 (.list [PyVal.num 1]) rfl,
   (c10_body_validation _).2.1 [("text", PyVal.num 5)] (PyVal.num 5) rfl
     (fun s h => PyVal.noConfusion h),
   (c10_body_validation _).2.2.1,
   (c10_body_validation _).2.2.2 [("text", PyVal.str "hi")] "hi" rfl
     (by simp [pyStrip, isPySpace]) (by simp) rfl⟩

end IntelliRoute
